import Mathlib

/-!
Shallow embedding of the CLI chat agent (src/agent.py and src/example_agent.py)
and verification of its status-display specification.

The status-display engine (`StatusDisplay`) is modelled as a state machine whose
observable behaviour is the list of terminal writes it performs; each write is
tagged with the code path that issued it and with whether the engine's single
lock was held at that moment.  The spinner thread is modelled by an optional
(message, next-frame-index) pair; one iteration of its loop body is the `tick`
action.  Cooperative stop is modelled as taking effect at the join inside
`stop_spinner`, so a live spinner is exactly a `some` value.
-/

namespace CLIAgent

/-- Status kinds of the StatusType enum in src/agent.py. -/
inductive StatusType where
  | THINKING
  | PROCESSING
  | SUCCESS
  | ERROR
  | INFO
  deriving DecidableEq, Repr

/-- The glyph literal attached to each status kind, exactly the code points
stored in src/agent.py (the file stores mojibake-decoded glyphs; we embed them
verbatim). -/
def StatusType.value : StatusType → String
  | .THINKING => "ðŸ¤”"
  | .PROCESSING => "âš™ï¸"
  | .SUCCESS => "âœ…"
  | .ERROR => "âŒ"
  | .INFO => "â„¹ï¸"

/-- One status report (the StatusMessage dataclass): kind, display text, and
the engine-assigned capture time, modelled as an abstract tick count. -/
structure StatusMessage where
  type : StatusType
  message : String
  timestamp : Nat
  deriving DecidableEq, Repr

/-- Provenance tag for one terminal write. -/
inductive WriteSrc where
  | clearPrefix
  | statusRender
  | spinnerFrame
  | newline
  deriving DecidableEq, Repr

/-- One write to stdout: its characters, whether the engine lock was held when
it was issued, and which code path issued it. -/
structure Write where
  content : String
  underLock : Bool
  src : WriteSrc
  deriving DecidableEq, Repr

/-- The characters printed by StatusDisplay._clear_line: a carriage return,
80 blanks, and another carriage return. -/
def clear_line_content : String := "\r" ++ String.mk (List.replicate 80 ' ') ++ "\r"

/-- The ten spinner frames of StatusDisplay._spin, code points as literally
present in src/agent.py. -/
def spinner_frames : List String :=
  ["â ‹", "â ™", "â ¹", "â ¸",
   "â ¼", "â ´", "â ¦", "â §",
   "â ‡", "â "]

/-- The fixed spinner cadence of _spin: time.sleep(0.1) between ticks, 100 ms. -/
def spinner_period_ms : Nat := 100

/-- Body printed by update: glyph, one space, message, no line break. -/
def render_status (t : StatusType) (m : String) : String := t.value ++ " " ++ m

/-- Body printed by one spinner tick: spinner[i % len(spinner)], a space, the
message. -/
def render_frame (i : Nat) (m : String) : String :=
  spinner_frames.getD (i % spinner_frames.length) "" ++ " " ++ m

/-- The StatusDisplay engine state: the fields of the Python class plus the
accumulated terminal writes (the observable output trace). -/
structure StatusDisplay where
  current_status : Option String
  status_history : List StatusMessage
  spinner : Option (String × Nat)
  clock : Nat
  writes : List Write
  deriving DecidableEq, Repr

/-- A freshly constructed StatusDisplay (its __init__). -/
def StatusDisplay.init : StatusDisplay :=
  { current_status := none, status_history := [], spinner := none, clock := 0, writes := [] }

/-- StatusDisplay.update: under the lock, append the event to history, clear
the line, and print the glyph-and-message body with no line break.  It does
not interact with the spinner. -/
def StatusDisplay.update (s : StatusDisplay) (t : StatusType) (m : String) : StatusDisplay :=
  { s with
      status_history := s.status_history ++ [⟨t, m, s.clock⟩],
      clock := s.clock + 1,
      writes := s.writes ++
        [⟨clear_line_content, true, .clearPrefix⟩, ⟨render_status t m, true, .statusRender⟩],
      current_status := some m }

/-- StatusDisplay.stop_spinner: if a spinner thread exists, signal its stop
flag and join it (bounded wait); otherwise do nothing. -/
def StatusDisplay.stop_spinner (s : StatusDisplay) : StatusDisplay :=
  match s.spinner with
  | none => s
  | some _ => { s with spinner := none }

/-- StatusDisplay.start_spinner: stop any existing spinner, then start a new
spinner thread on the given message, whose frame index begins at 0. -/
def StatusDisplay.start_spinner (s : StatusDisplay) (m : String) : StatusDisplay :=
  { s.stop_spinner with spinner := some (m, 0) }

/-- The default value of StatusDisplay.complete's message parameter. -/
def complete_default_message : String := "Complete"

/-- StatusDisplay.complete: stop_spinner, update(SUCCESS, message), then a bare
print() — the sealing newline — issued after update's lock has been released. -/
def StatusDisplay.complete (s : StatusDisplay) (m : String) : StatusDisplay :=
  let s1 := (s.stop_spinner).update .SUCCESS m
  { s1 with writes := s1.writes ++ [⟨"\n", false, .newline⟩] }

/-- StatusDisplay.complete invoked with no argument. -/
def StatusDisplay.complete_default (s : StatusDisplay) : StatusDisplay :=
  s.complete complete_default_message

/-- StatusDisplay.error: stop_spinner, update(ERROR, message), then print(). -/
def StatusDisplay.error (s : StatusDisplay) (m : String) : StatusDisplay :=
  let s1 := (s.stop_spinner).update .ERROR m
  { s1 with writes := s1.writes ++ [⟨"\n", false, .newline⟩] }

/-- One iteration of the _spin loop taken while the stop flag is clear: under
the lock, clear the line and print the current frame; then advance the frame
index.  When no spinner is live a tick does nothing. -/
def StatusDisplay.tick (s : StatusDisplay) : StatusDisplay :=
  match s.spinner with
  | none => s
  | some (m, i) =>
    { s with
        writes := s.writes ++
          [⟨clear_line_content, true, .clearPrefix⟩, ⟨render_frame i m, true, .spinnerFrame⟩],
        spinner := some (m, i + 1) }

/-- The engine's externally drivable operations plus the spinner thread's tick. -/
inductive Op where
  | update (t : StatusType) (m : String)
  | complete (m : String)
  | error (m : String)
  | start_spinner (m : String)
  | stop_spinner
  | tick
  deriving DecidableEq, Repr

/-- Apply one operation to the engine state. -/
def step (s : StatusDisplay) : Op → StatusDisplay
  | .update t m => s.update t m
  | .complete m => s.complete m
  | .error m => s.error m
  | .start_spinner m => s.start_spinner m
  | .stop_spinner => s.stop_spinner
  | .tick => s.tick

/-- Run a sequence of operations from a fresh engine. -/
def run (ops : List Op) : StatusDisplay := ops.foldl step StatusDisplay.init

/-- Operations that append a StatusEvent: update, complete, error. -/
def Op.isEvent : Op → Bool
  | .update _ _ => true
  | .complete _ => true
  | .error _ => true
  | _ => false

/-- Number of event-appending operations in a sequence. -/
def eventCount (ops : List Op) : Nat := (ops.filter Op.isEvent).length

/-- A write that puts visible line content on the shared line. -/
def Write.isLineContent (w : Write) : Bool :=
  match w.src with
  | .statusRender => true
  | .spinnerFrame => true
  | _ => false

/-- A write issued by a spinner tick. -/
def Write.isSpinnerFrame (w : Write) : Bool :=
  match w.src with
  | .spinnerFrame => true
  | _ => false

/-- The last visible line content written so far, if any. -/
def finalLine (s : StatusDisplay) : Option Write :=
  (s.writes.filter Write.isLineContent).getLast?

/-! ### Session loop (ChatInterface and main in src/agent.py) -/

/-- The whitespace set of Python str.strip and str.split with no arguments
(ASCII portion, which is all the repository's inputs use). -/
def isPyWhitespace (c : Char) : Bool :=
  c == ' ' || c == '\t' || c == '\n' || c == '\r' || c == '\x0b' || c == '\x0c'

/-- Python str.strip(): remove leading and trailing whitespace. -/
def pyStrip (s : String) : String :=
  String.mk (((s.data.dropWhile isPyWhitespace).reverse.dropWhile isPyWhitespace).reverse)

/-- Python str.lower() (ASCII case mapping). -/
def pyLower (s : String) : String := String.mk (s.data.map Char.toLower)

/-- Python str.upper() (ASCII case mapping). -/
def pyUpper (s : String) : String := String.mk (s.data.map Char.toUpper)

/-- Worker for pySplit: accumulate the current token (reversed) and flush it at
each whitespace run boundary. -/
def pySplitAux : List Char → List Char → List String
  | [], [] => []
  | [], acc => [String.mk acc.reverse]
  | c :: cs, acc =>
    if isPyWhitespace c then
      match acc with
      | [] => pySplitAux cs []
      | _ => String.mk acc.reverse :: pySplitAux cs []
    else pySplitAux cs (c :: acc)

/-- Python str.split() with no arguments: split on runs of whitespace,
producing no empty tokens. -/
def pySplit (s : String) : List String := pySplitAux s.data []

/-- Character-list substring test: does needle occur contiguously in hay? -/
def charsContain (hay needle : List Char) : Bool :=
  match hay with
  | [] => needle.isEmpty
  | _ :: t => needle.isPrefixOf hay || charsContain t needle

/-- Python substring membership: needle in hay. -/
def pyContains (hay needle : String) : Bool := charsContain hay.data needle.data

/-- The exit keyword list checked by ChatInterface.run. -/
def exit_keywords : List String := ["exit", "quit", "q"]

/-- Message printed when an exit keyword is read. -/
def farewell_message : String := "Goodbye!"

/-- Message printed when a keyboard interrupt is caught. -/
def interrupt_message : String := "\n\nInterrupted by user. Exiting..."

/-- What ChatInterface.run decides to do with one line read by
_get_user_input (which strips the raw line) before any processing. -/
inductive InputAction where
  | exitLoop
  | reprompt
  | process (request : String)
  deriving DecidableEq, Repr

/-- The line dispatch at the top of ChatInterface.run's loop body:
request = line.strip(); exit keywords (lower-cased membership) end the loop;
an empty request re-prompts; anything else is processed. -/
def classifyInput (line : String) : InputAction :=
  let request := pyStrip line
  if pyLower request ∈ exit_keywords then .exitLoop
  else if pyStrip request = "" then .reprompt
  else .process request

/-- Outcome of one blocking read in the session loop. -/
inductive LoopEvent where
  | line (l : String)
  | interrupt
  deriving DecidableEq, Repr

/-- How run() (and main, which installs no handler) ends: falling out of the
loop returns normally, exit code 0; an exception escaping run() kills the
process with a nonzero code. -/
inductive RunExit where
  | normal
  | exception (msg : String)
  deriving DecidableEq, Repr

/-- Process exit status for each way run() ends. -/
def exitCode : RunExit → Nat
  | .normal => 0
  | .exception _ => 1

/-- Top-of-loop outcome of ChatInterface.run for one read. -/
inductive SessionOutcome where
  | terminate (farewell : String) (code : Nat)
  | repromptNoEngine
  | processRequest (request : String)
  deriving DecidableEq, Repr

/-- ChatInterface.run's dispatch for one read outcome: exit keywords and
keyboard interrupts both end the loop cleanly (exit code 0) after printing
their message; empty lines re-prompt without calling the engine. -/
def sessionHandle : LoopEvent → SessionOutcome
  | .interrupt => .terminate interrupt_message (exitCode .normal)
  | .line l =>
    match classifyInput l with
    | .exitLoop => .terminate farewell_message (exitCode .normal)
    | .reprompt => .repromptNoEngine
    | .process r => .processRequest r

/-- Result of calling the processing collaborator for one request: either a
ResultRecord or an exception propagating out of it (the engine installs no
handler, so a renderer write failure surfaces here). -/
inductive ProcessOutcome where
  | ok (record : List (String × String))
  | raises (msg : String)
  deriving DecidableEq, Repr

/-- Outcome of one full iteration of ChatInterface.run's loop body. -/
inductive IterResult where
  | exitLoop
  | continueLoop
  | uncaught (msg : String)
  deriving DecidableEq, Repr

/-- One full iteration of ChatInterface.run after reading a line: dispatch the
line; on a processing exception, the except-Exception arm reports it via
status_display.error, and only if that report itself raises does the exception
escape run() (killing the process); otherwise the loop continues. -/
def runIteration (l : String) (proc : ProcessOutcome) (errorReportRaises : Bool) : IterResult :=
  match classifyInput l with
  | .exitLoop => .exitLoop
  | .reprompt => .continueLoop
  | .process _ =>
    match proc with
    | .ok _ => .continueLoop
    | .raises e => if errorReportRaises then .uncaught e else .continueLoop

/-! ### Example agents (src/example_agent.py) -/

/-- Engine calls as issued at the StatusDisplay API level by the example
agents. -/
inductive EngineCall where
  | update (t : StatusType) (m : String)
  | start_spinner (m : String)
  | stop_spinner
  | complete (m : String)
  deriving DecidableEq, Repr

/-- Keywords routing a request to _handle_calculation. -/
def calc_words : List String := ["calculate", "compute", "math"]

/-- Keywords routing a request to _handle_search. -/
def search_words : List String := ["search", "find", "look"]

/-- Keywords routing a request to _handle_analysis. -/
def analysis_words : List String := ["analyze", "review", "check"]

/-- TaskAgent._handle_calculation: two PROCESSING updates then complete; the
mock random.randint(1, 100) draw is the randVal parameter. -/
def taskAgent_handle_calculation (request : String) (randVal : Nat) :
    List EngineCall × List (String × String) :=
  ([.update .PROCESSING "Parsing mathematical expression...",
    .update .PROCESSING "Computing result...",
    .complete "Calculation complete"],
   [("status", "success"), ("type", "calculation"), ("request", request),
    ("result", "The answer is " ++ toString randVal), ("confidence", "95%")])

/-- TaskAgent._handle_search; randVal models random.randint(5, 50). -/
def taskAgent_handle_search (request : String) (randVal : Nat) :
    List EngineCall × List (String × String) :=
  ([.start_spinner "Searching database", .stop_spinner,
    .update .PROCESSING "Ranking results...",
    .update .INFO "Formatting output...",
    .complete "Search complete"],
   [("status", "success"), ("type", "search"), ("request", request),
    ("results_found", toString randVal), ("top_result", "Example result item"),
    ("relevance_score", "87%")])

/-- The five step messages of TaskAgent._handle_analysis. -/
def analysis_steps : List String :=
  ["Loading data...", "Preprocessing input...", "Running analysis algorithms...",
   "Validating results...", "Generating insights..."]

/-- TaskAgent._handle_analysis; randVal models random.randint(3, 8). -/
def taskAgent_handle_analysis (request : String) (randVal : Nat) :
    List EngineCall × List (String × String) :=
  (analysis_steps.map (fun st => .update .PROCESSING st) ++ [.complete "Analysis complete"],
   [("status", "success"), ("type", "analysis"), ("request", request),
    ("insights_generated", toString randVal), ("confidence_level", "High"),
    ("recommendation", "Consider reviewing the detailed report")])

/-- TaskAgent._handle_general. -/
def taskAgent_handle_general (request : String) :
    List EngineCall × List (String × String) :=
  ([.update .THINKING "Understanding request...",
    .start_spinner "Processing request", .stop_spinner,
    .complete "Request processed"],
   [("status", "success"), ("type", "general"), ("request", request),
    ("response", "Your request has been processed successfully"),
    ("next_steps", "You can continue with another request")])

/-- TaskAgent.process_request: the leading THINKING update, then keyword-based
dispatch on the lower-cased request (substring containment, first match wins). -/
def taskAgent_process_request (request : String) (randVal : Nat) :
    List EngineCall × List (String × String) :=
  let head : List EngineCall := [.update .THINKING "Analyzing request type..."]
  let rl := pyLower request
  let body :=
    if calc_words.any (fun w => pyContains rl w) then taskAgent_handle_calculation request randVal
    else if search_words.any (fun w => pyContains rl w) then taskAgent_handle_search request randVal
    else if analysis_words.any (fun w => pyContains rl w) then
      taskAgent_handle_analysis request randVal
    else taskAgent_handle_general request
  (head ++ body.1, body.2)

/-- StreamingAgent.process_request: a THINKING update, a PROCESSING update for
token 0, one PROCESSING update per token (1-based), one complete; the result
record holds the upper-cased tokens joined by single spaces and their count. -/
def streamingAgent_process_request (request : String) :
    List EngineCall × List (String × String) :=
  let tokens := pySplit request
  let n := tokens.length
  ([.update .THINKING "Preparing response stream...",
    .update .PROCESSING ("Processing 0/" ++ toString n ++ " tokens...")]
   ++ (List.range n).map
        (fun i => .update .PROCESSING
          ("Processing " ++ toString (i + 1) ++ "/" ++ toString n ++ " tokens..."))
   ++ [.complete "Stream complete"],
   [("status", "success"), ("type", "streaming"), ("original", request),
    ("processed", String.intercalate " " (tokens.map pyUpper)),
    ("tokens_processed", toString n)])

/-- Calls that start a spinner. -/
def EngineCall.isStartSpinner : EngineCall → Bool
  | .start_spinner _ => true
  | _ => false

/-- PROCESSING-kind update calls. -/
def EngineCall.isProcessingUpdate : EngineCall → Bool
  | .update .PROCESSING _ => true
  | _ => false

/-- Completion calls. -/
def EngineCall.isComplete : EngineCall → Bool
  | .complete _ => true
  | _ => false

/-! ### Helper lemmas -/

/-- stop_spinner only clears the spinner field, whatever its prior value. -/
theorem stop_spinner_spec (s : StatusDisplay) :
    s.stop_spinner = { s with spinner := none } := by
  cases s with
  | mk cs hist sp clk ws => cases sp <;> simp [StatusDisplay.stop_spinner]

/-- stop_spinner is idempotent. -/
theorem stop_spinner_idem (s : StatusDisplay) :
    s.stop_spinner.stop_spinner = s.stop_spinner := by
  simp [stop_spinner_spec]

/-- Characters of an appended string. -/
theorem string_data_append (a b : String) : (a ++ b).data = a.data ++ b.data := by
  cases a
  cases b
  rfl

/-! ### C3 -/

/-- C3: for every prior engine state (spinning, mid-update, or idle) and every
message, complete stops any active spinner, appends exactly one SUCCESS-kind
event for the message, writes its render under the lock, then seals the line
with exactly one trailing newline; invoked with no argument the rendered
message is "Complete". -/
theorem C3_complete_spec (s : StatusDisplay) (m : String) :
    (s.complete m).spinner = none ∧
    (s.complete m).status_history = s.status_history ++ [⟨.SUCCESS, m, s.clock⟩] ∧
    (s.complete m).writes = s.writes ++
      [⟨clear_line_content, true, .clearPrefix⟩,
       ⟨render_status .SUCCESS m, true, .statusRender⟩,
       ⟨"\n", false, .newline⟩] ∧
    s.complete_default = s.complete complete_default_message ∧
    complete_default_message = "Complete" := by
  refine ⟨?_, ?_, ?_, rfl, rfl⟩ <;>
    simp [StatusDisplay.complete, StatusDisplay.update, stop_spinner_spec]

/-! ### C5 -/

/-- C5: every status render first writes the clear prefix — a carriage return,
80 blanks, a carriage return — under the lock, then the body, glyph followed by
one space and the message, with no trailing line break; spinner-frame renders
follow the same two-write shape. -/
theorem C5_render_bytes (s : StatusDisplay) (t : StatusType) (m msg : String) (i : Nat) :
    (s.update t m).writes = s.writes ++
      [⟨clear_line_content, true, .clearPrefix⟩,
       ⟨render_status t m, true, .statusRender⟩] ∧
    clear_line_content.data = '\r' :: (List.replicate 80 ' ' ++ ['\r']) ∧
    render_status t m = t.value ++ " " ++ m ∧
    ('\n' ∉ m.data → '\n' ∉ (render_status t m).data) ∧
    (s.spinner = some (msg, i) →
      s.tick.writes = s.writes ++
        [⟨clear_line_content, true, .clearPrefix⟩,
         ⟨render_frame i msg, true, .spinnerFrame⟩]) := by
  refine ⟨by simp [StatusDisplay.update], by decide, rfl, ?_, ?_⟩
  · intro hm hmem
    rw [render_status, string_data_append] at hmem
    rcases List.mem_append.1 hmem with h | h
    · revert h
      cases t <;> decide
    · exact hm h
  · intro hs
    simp [StatusDisplay.tick, hs]

/-- C5 witness: the hypotheses hold at a concrete input. -/
theorem C5_render_bytes_witness :
    '\n' ∉ (render_status .SUCCESS "done").data ∧
    (StatusDisplay.init.start_spinner "w").tick.writes
      = (StatusDisplay.init.start_spinner "w").writes ++
        [⟨clear_line_content, true, .clearPrefix⟩,
         ⟨render_frame 0 "w", true, .spinnerFrame⟩] :=
  ⟨(C5_render_bytes StatusDisplay.init .SUCCESS "done" "w" 0).2.2.2.1 (by decide),
   (C5_render_bytes (StatusDisplay.init.start_spinner "w") .SUCCESS "done" "w" 0).2.2.2.2 rfl⟩

/-! ### C6 -/

/-- C6: the spinner cycles through a fixed ordered list of 10 frames at a fixed
100 ms cadence, tick i rendering frame i mod 10 next to the fixed message;
stop_spinner with no live spinner is a no-op, and start_spinner performs an
implicit stop of any running spinner before starting the new one at frame 0. -/
theorem C6_spinner_contract (s : StatusDisplay) (m msg : String) (i : Nat) :
    spinner_frames.length = 10 ∧
    spinner_period_ms = 100 ∧
    (s.spinner = some (msg, i) →
      s.tick.spinner = some (msg, i + 1) ∧
      s.tick.writes = s.writes ++
        [⟨clear_line_content, true, .clearPrefix⟩,
         ⟨spinner_frames.getD (i % 10) "" ++ " " ++ msg, true, .spinnerFrame⟩]) ∧
    (s.spinner = none → s.stop_spinner = s) ∧
    (s.start_spinner m).spinner = some (m, 0) ∧
    s.start_spinner m = (s.stop_spinner).start_spinner m := by
  refine ⟨rfl, rfl, ?_, ?_, rfl, ?_⟩
  · intro hs
    constructor
    · simp [StatusDisplay.tick, hs]
    · simp [StatusDisplay.tick, hs, render_frame, spinner_frames]
  · intro hs
    cases s with
    | mk cs hist sp clk ws =>
      simp only at hs
      simp [StatusDisplay.stop_spinner, hs]
  · simp [StatusDisplay.start_spinner, stop_spinner_idem]

/-- C6 witness: the hypotheses hold at concrete inputs. -/
theorem C6_spinner_contract_witness :
    ((StatusDisplay.init.start_spinner "w").tick.spinner = some ("w", 1) ∧
      (StatusDisplay.init.start_spinner "w").tick.writes
        = (StatusDisplay.init.start_spinner "w").writes ++
          [⟨clear_line_content, true, .clearPrefix⟩,
           ⟨spinner_frames.getD (0 % 10) "" ++ " " ++ "w", true, .spinnerFrame⟩]) ∧
    StatusDisplay.init.stop_spinner = StatusDisplay.init :=
  ⟨(C6_spinner_contract (StatusDisplay.init.start_spinner "w") "w" "w" 0).2.2.1 rfl,
   (C6_spinner_contract StatusDisplay.init "w" "w" 0).2.2.2.1 rfl⟩

/-! ### C1 -/

/-- C1 counterexample: update does not stop a live spinner.  After
start_spinner followed by update, the spinner is still registered, and the
spinner loop's next tick writes one more spinner frame to the line. -/
theorem C1_claim_counterexample :
    (run [Op.start_spinner "Processing components",
          Op.update .INFO "Generating response..."]).spinner
      = some ("Processing components", 0) ∧
    ((run [Op.start_spinner "Processing components",
           Op.update .INFO "Generating response...", Op.tick]).writes.filter
        Write.isSpinnerFrame).length = 1 := by
  decide

/-- C1 (amended): update leaves the spinner exactly as it found it — it
neither stops nor restarts it — so while a spinner is live, a tick after
update returns still writes a further spinner frame; the spinner is stopped
only by stop_spinner, complete, error, or a new start_spinner. -/
theorem C1_update_leaves_spinner (s : StatusDisplay) (t : StatusType) (m msg : String) (i : Nat)
    (h : s.spinner = some (msg, i)) :
    (s.update t m).spinner = some (msg, i) ∧
    (s.update t m).tick.writes
      = (s.update t m).writes ++
        [⟨clear_line_content, true, .clearPrefix⟩,
         ⟨render_frame i msg, true, .spinnerFrame⟩] ∧
    (s.update t m).stop_spinner.spinner = none ∧
    ((s.update t m).complete m).spinner = none ∧
    ((s.update t m).error m).spinner = none := by
  refine ⟨?_, ?_, ?_, ?_, ?_⟩
  · simp [StatusDisplay.update, h]
  · have h2 : (s.update t m).spinner = some (msg, i) := by simp [StatusDisplay.update, h]
    simp [StatusDisplay.tick, h2]
  · simp [stop_spinner_spec]
  · simp [StatusDisplay.complete, StatusDisplay.update, stop_spinner_spec]
  · simp [StatusDisplay.error, StatusDisplay.update, stop_spinner_spec]

/-- C1 witness: the amended statement at a concrete spinning state. -/
theorem C1_update_leaves_spinner_witness :
    ((StatusDisplay.init.start_spinner "work").update .INFO "x").spinner = some ("work", 0) ∧
    ((StatusDisplay.init.start_spinner "work").update .INFO "x").tick.writes
      = ((StatusDisplay.init.start_spinner "work").update .INFO "x").writes ++
        [⟨clear_line_content, true, .clearPrefix⟩,
         ⟨render_frame 0 "work", true, .spinnerFrame⟩] ∧
    ((StatusDisplay.init.start_spinner "work").update .INFO "x").stop_spinner.spinner = none ∧
    (((StatusDisplay.init.start_spinner "work").update .INFO "x").complete "x").spinner = none ∧
    (((StatusDisplay.init.start_spinner "work").update .INFO "x").error "x").spinner = none :=
  C1_update_leaves_spinner (StatusDisplay.init.start_spinner "work") .INFO "x" "work" 0 rfl

/-! ### C2 -/

/-- C2 counterexample: the sealing newline of complete is written after
update's lock region has been released, so not every write to the shared line
happens under the lock. -/
theorem C2_claim_counterexample :
    (StatusDisplay.init.complete "X").writes.map (fun w => (w.underLock, w.src))
      = [(true, WriteSrc.clearPrefix), (true, WriteSrc.statusRender),
         (false, WriteSrc.newline)] := by
  decide

/-- Auxiliary step lemma: every clear-prefix, status-render and spinner-frame
write is issued under the lock, and every sealing newline outside it. -/
theorem lock_discipline_step (s : StatusDisplay) (op : Op)
    (h : ∀ w ∈ s.writes, (w.underLock = true ↔ w.src ≠ WriteSrc.newline)) :
    ∀ w ∈ (step s op).writes, (w.underLock = true ↔ w.src ≠ WriteSrc.newline) := by
  intro w hw
  cases op with
  | update t m =>
    simp [step, StatusDisplay.update] at hw
    rcases hw with hw | hw | hw
    · exact h w hw
    · subst hw; simp
    · subst hw; simp
  | complete m =>
    simp [step, StatusDisplay.complete, StatusDisplay.update, stop_spinner_spec] at hw
    rcases hw with hw | hw | hw | hw
    · exact h w hw
    · subst hw; simp
    · subst hw; simp
    · subst hw; simp
  | error m =>
    simp [step, StatusDisplay.error, StatusDisplay.update, stop_spinner_spec] at hw
    rcases hw with hw | hw | hw | hw
    · exact h w hw
    · subst hw; simp
    · subst hw; simp
    · subst hw; simp
  | start_spinner m =>
    simp [step, StatusDisplay.start_spinner, stop_spinner_spec] at hw
    exact h w hw
  | stop_spinner =>
    simp [step, stop_spinner_spec] at hw
    exact h w hw
  | tick =>
    cases hs : s.spinner with
    | none =>
      simp [step, StatusDisplay.tick, hs] at hw
      exact h w hw
    | some p =>
      obtain ⟨pm, pi⟩ := p
      simp [step, StatusDisplay.tick, hs] at hw
      rcases hw with hw | hw | hw
      · exact h w hw
      · subst hw; simp
      · subst hw; simp

/-- C2 (amended): in every reachable trace, each discrete update render and
each spinner-tick render (clear prefix and body alike) is performed while
holding the engine's single lock, and the line-sealing newline writes of
complete and error are the writes performed outside it. -/
theorem C2_lock_discipline (ops : List Op) :
    ∀ w ∈ (run ops).writes, (w.underLock = true ↔ w.src ≠ WriteSrc.newline) := by
  have aux : ∀ (l : List Op) (s : StatusDisplay),
      (∀ w ∈ s.writes, (w.underLock = true ↔ w.src ≠ WriteSrc.newline)) →
      ∀ w ∈ (l.foldl step s).writes, (w.underLock = true ↔ w.src ≠ WriteSrc.newline) := by
    intro l
    induction l with
    | nil => intro s hs; exact hs
    | cons op rest ih => intro s hs; exact ih _ (lock_discipline_step s op hs)
  refine aux ops StatusDisplay.init ?_
  intro w hw
  simp [StatusDisplay.init] at hw

/-- C2 witness: the lock-discipline statement at a concrete trace and write. -/
theorem C2_lock_discipline_witness :
    (Write.mk "\n" false WriteSrc.newline).underLock = true ↔
      (Write.mk "\n" false WriteSrc.newline).src ≠ WriteSrc.newline :=
  C2_lock_discipline [Op.complete "X"] (Write.mk "\n" false WriteSrc.newline) (by decide)

/-! ### C4 -/

/-- C4 counterexample: after a spinner tick follows the last event, the final
rendered line is the spinner frame, not the renderer's output for the last
event in history. -/
theorem C4_claim_counterexample :
    (finalLine (run [Op.update .INFO "Generating response...",
                     Op.start_spinner "Processing components", Op.tick])).map Write.content
      = some (render_frame 0 "Processing components") ∧
    some (render_frame 0 "Processing components")
      ≠ some (render_status .INFO "Generating response...") := by
  decide

/-- Auxiliary: how one step changes the history length. -/
theorem step_history_length (s : StatusDisplay) (op : Op) :
    (step s op).status_history.length
      = s.status_history.length + (if op.isEvent then 1 else 0) := by
  cases op with
  | update t m => simp [step, Op.isEvent, StatusDisplay.update]
  | complete m =>
    simp [step, Op.isEvent, StatusDisplay.complete, StatusDisplay.update, stop_spinner_spec]
  | error m =>
    simp [step, Op.isEvent, StatusDisplay.error, StatusDisplay.update, stop_spinner_spec]
  | start_spinner m => simp [step, Op.isEvent, StatusDisplay.start_spinner, stop_spinner_spec]
  | stop_spinner => simp [step, Op.isEvent, stop_spinner_spec]
  | tick =>
    cases hs : s.spinner with
    | none => simp [step, Op.isEvent, StatusDisplay.tick, hs]
    | some p =>
      obtain ⟨pm, pi⟩ := p
      simp [step, Op.isEvent, StatusDisplay.tick, hs]

/-- Auxiliary: eventCount unfolds over cons. -/
theorem eventCount_cons (op : Op) (rest : List Op) :
    eventCount (op :: rest) = (if op.isEvent then 1 else 0) + eventCount rest := by
  unfold eventCount
  rw [List.filter_cons]
  cases h : op.isEvent <;> simp [h, Nat.add_comm]

/-- Auxiliary: history length after a run from any starting state. -/
theorem run_history_length_aux (ops : List Op) (s : StatusDisplay) :
    (ops.foldl step s).status_history.length = s.status_history.length + eventCount ops := by
  induction ops generalizing s with
  | nil => simp [eventCount]
  | cons op rest ih =>
    rw [List.foldl_cons, ih, step_history_length, eventCount_cons]
    exact Nat.add_assoc _ _ _

/-- Auxiliary step lemma: whenever the last line-content write is a status
render, its characters are the renderer's output for the last history event. -/
theorem final_line_step (s : StatusDisplay) (op : Op)
    (h : ∀ w, finalLine s = some w → w.src = WriteSrc.statusRender →
      (s.status_history.getLast?).map (fun e => render_status e.type e.message)
        = some w.content) :
    ∀ w, finalLine (step s op) = some w → w.src = WriteSrc.statusRender →
      ((step s op).status_history.getLast?).map (fun e => render_status e.type e.message)
        = some w.content := by
  intro w hw hsrc
  cases op with
  | update t m =>
    simp [step, StatusDisplay.update, finalLine, List.filter_append,
      Write.isLineContent] at hw
    subst hw
    simp [step, StatusDisplay.update]
  | complete m =>
    simp [step, StatusDisplay.complete, StatusDisplay.update, stop_spinner_spec, finalLine,
      List.filter_append, Write.isLineContent] at hw
    subst hw
    simp [step, StatusDisplay.complete, StatusDisplay.update, stop_spinner_spec]
  | error m =>
    simp [step, StatusDisplay.error, StatusDisplay.update, stop_spinner_spec, finalLine,
      List.filter_append, Write.isLineContent] at hw
    subst hw
    simp [step, StatusDisplay.error, StatusDisplay.update, stop_spinner_spec]
  | start_spinner m =>
    have hfl : finalLine (step s (.start_spinner m)) = finalLine s := by
      simp [finalLine, step, StatusDisplay.start_spinner, stop_spinner_spec]
    have hh : (step s (.start_spinner m)).status_history = s.status_history := by
      simp [step, StatusDisplay.start_spinner, stop_spinner_spec]
    rw [hfl] at hw
    rw [hh]
    exact h w hw hsrc
  | stop_spinner =>
    have hfl : finalLine (step s .stop_spinner) = finalLine s := by
      simp [finalLine, step, stop_spinner_spec]
    have hh : (step s .stop_spinner).status_history = s.status_history := by
      simp [step, stop_spinner_spec]
    rw [hfl] at hw
    rw [hh]
    exact h w hw hsrc
  | tick =>
    cases hs : s.spinner with
    | none =>
      have hfl : finalLine (step s .tick) = finalLine s := by
        simp [finalLine, step, StatusDisplay.tick, hs]
      have hh : (step s .tick).status_history = s.status_history := by
        simp [step, StatusDisplay.tick, hs]
      rw [hfl] at hw
      rw [hh]
      exact h w hw hsrc
    | some p =>
      obtain ⟨pm, pi⟩ := p
      simp [step, StatusDisplay.tick, hs, finalLine, List.filter_append,
        Write.isLineContent] at hw
      subst hw
      simp at hsrc

/-- C4 (amended): the history length equals the number of update, complete and
error operations performed (each appends exactly one event); start_spinner,
stop_spinner and spinner ticks never add to or modify the history; and
whenever the final rendered line content is a status render — that is, no
spinner frame was written after the last event's render — it equals the
renderer's output for the last event in history. -/
theorem C4_history_and_final_line (ops : List Op) :
    (run ops).status_history.length = eventCount ops ∧
    (∀ (s : StatusDisplay) (m : String),
      (s.start_spinner m).status_history = s.status_history ∧
      s.stop_spinner.status_history = s.status_history ∧
      s.tick.status_history = s.status_history) ∧
    (∀ w, finalLine (run ops) = some w → w.src = WriteSrc.statusRender →
      ((run ops).status_history.getLast?).map (fun e => render_status e.type e.message)
        = some w.content) := by
  refine ⟨?_, ?_, ?_⟩
  · have := run_history_length_aux ops StatusDisplay.init
    simpa [run, StatusDisplay.init] using this
  · intro s m
    refine ⟨by simp [StatusDisplay.start_spinner, stop_spinner_spec], by simp [stop_spinner_spec], ?_⟩
    cases hs : s.spinner with
    | none => simp [StatusDisplay.tick, hs]
    | some p =>
      obtain ⟨pm, pi⟩ := p
      simp [StatusDisplay.tick, hs]
  · have aux : ∀ (l : List Op) (s : StatusDisplay),
        (∀ w, finalLine s = some w → w.src = WriteSrc.statusRender →
          (s.status_history.getLast?).map (fun e => render_status e.type e.message)
            = some w.content) →
        ∀ w, finalLine (l.foldl step s) = some w → w.src = WriteSrc.statusRender →
          ((l.foldl step s).status_history.getLast?).map
              (fun e => render_status e.type e.message) = some w.content := by
      intro l
      induction l with
      | nil => intro s hs; exact hs
      | cons op rest ih => intro s hs; exact ih _ (final_line_step s op hs)
    refine aux ops StatusDisplay.init ?_
    intro w hw
    simp [finalLine, StatusDisplay.init] at hw

/-- C4 witness: the hypotheses hold at a concrete one-update trace. -/
theorem C4_history_and_final_line_witness :
    ((run [Op.update .INFO "x"]).status_history.getLast?).map
        (fun e => render_status e.type e.message)
      = some (Write.mk (render_status .INFO "x") true WriteSrc.statusRender).content :=
  (C4_history_and_final_line [Op.update .INFO "x"]).2.2
    (Write.mk (render_status .INFO "x") true WriteSrc.statusRender) (by decide) rfl

/-! ### C7 -/

/-- C7 counterexample: a failure raised while processing a request (such as a
renderer write failure) is caught by run's except-Exception arm; when the
error(...) report succeeds, the loop continues instead of terminating the
process with a nonzero status. -/
theorem C7_claim_counterexample :
    runIteration "do something" (.raises "write failed") false = IterResult.continueLoop ∧
    runIteration "do something" (.raises "write failed") false
      ≠ IterResult.uncaught "write failed" := by
  decide

/-- C7 (amended): the engine installs no handler, so a renderer write failure
propagates to the Session Loop; there the except-Exception arm reports it via
error(...), and the process terminates with a nonzero exit status only when
that report itself raises — otherwise the prompt loop continues. -/
theorem C7_write_failure_path (l e r : String) (b : Bool)
    (h : classifyInput l = .process r) :
    runIteration l (.raises e) b
      = (if b then IterResult.uncaught e else IterResult.continueLoop) ∧
    exitCode (.exception e) = 1 ∧
    exitCode .normal = 0 := by
  refine ⟨?_, rfl, rfl⟩
  simp [runIteration, h]

/-- C7 witness: the amended statement at a concrete request and failure. -/
theorem C7_write_failure_path_witness :
    runIteration "do something" (.raises "broken pipe") true
      = (if true then IterResult.uncaught "broken pipe" else IterResult.continueLoop) ∧
    exitCode (.exception "broken pipe") = 1 ∧
    exitCode .normal = 0 :=
  C7_write_failure_path "do something" "broken pipe" "do something" true (by decide)

/-! ### C8 -/

/-- C8: the loop trims each input line; a trimmed line whose lower-casing is
one of exit, quit, q terminates with the farewell message and exit code 0; an
all-whitespace line re-prompts without invoking any engine operation; a
keyboard interrupt also terminates with exit code 0. -/
theorem C8_session_loop (l : String) :
    (pyLower (pyStrip l) ∈ exit_keywords →
      sessionHandle (.line l) = .terminate farewell_message 0) ∧
    (pyStrip l = "" → sessionHandle (.line l) = .repromptNoEngine) ∧
    sessionHandle .interrupt = .terminate interrupt_message 0 := by
  refine ⟨fun h => ?_, fun h => ?_, rfl⟩
  · simp [sessionHandle, classifyInput, h, exitCode]
  · have h1 : pyLower (pyStrip l) ∉ exit_keywords := by
      rw [h]; decide
    have h2 : pyStrip (pyStrip l) = "" := by
      rw [h]; decide
    simp [sessionHandle, classifyInput, h1, h2]

/-- C8 witness: the hypotheses hold at concrete input lines. -/
theorem C8_session_loop_witness :
    sessionHandle (.line "  QUIT  ") = .terminate farewell_message 0 ∧
    sessionHandle (.line "   ") = .repromptNoEngine :=
  ⟨(C8_session_loop "  QUIT  ").1 (by decide),
   (C8_session_loop "   ").2.1 (by decide)⟩

/-! ### C9 -/

/-- C9 counterexample: for the input calculate 2+2 the TaskAgent takes the
calculation path, which issues Thinking, two Processing updates and a
completion — it never starts a spinner, so the engine does not receive the
claimed spinner start. -/
theorem C9_claim_counterexample :
    (taskAgent_process_request "calculate 2+2" 4).1 =
      [.update .THINKING "Analyzing request type...",
       .update .PROCESSING "Parsing mathematical expression...",
       .update .PROCESSING "Computing result...",
       .complete "Calculation complete"] ∧
    (taskAgent_process_request "calculate 2+2" 4).1.filter EngineCall.isStartSpinner = [] := by
  decide

/-- C9 (amended): for the input calculate 2+2, whatever the mock random draw,
the engine receives Thinking, then two Processing updates, then a Success-kind
completion (no spinner is started), and the returned record contains a status
field equal to success and a result field. -/
theorem C9_calculate_trace (randVal : Nat) :
    (taskAgent_process_request "calculate 2+2" randVal).1 =
      [.update .THINKING "Analyzing request type...",
       .update .PROCESSING "Parsing mathematical expression...",
       .update .PROCESSING "Computing result...",
       .complete "Calculation complete"] ∧
    (taskAgent_process_request "calculate 2+2" randVal).1.filter EngineCall.isStartSpinner
      = [] ∧
    (taskAgent_process_request "calculate 2+2" randVal).2.lookup "status" = some "success" ∧
    (taskAgent_process_request "calculate 2+2" randVal).2.lookup "result"
      = some ("The answer is " ++ toString randVal) := by
  exact ⟨rfl, rfl, rfl, rfl⟩

/-! ### C10 -/

/-- Auxiliary: a filter keeping every mapped element has full length. -/
theorem filter_map_range_length (p : EngineCall → Bool) (g : Nat → EngineCall)
    (hg : ∀ i, p (g i) = true) (n : Nat) :
    (((List.range n).map g).filter p).length = n := by
  induction n with
  | zero => simp
  | succ k ih =>
    rw [List.range_succ]
    simp [List.filter_append, hg, ih]

/-- Auxiliary: a filter rejecting every mapped element is empty. -/
theorem filter_map_range_nil (p : EngineCall → Bool) (g : Nat → EngineCall)
    (hg : ∀ i, p (g i) = false) (n : Nat) :
    ((List.range n).map g).filter p = [] := by
  induction n with
  | zero => simp
  | succ k ih =>
    rw [List.range_succ]
    simp [List.filter_append, hg, ih]

/-- C10: StreamingAgent.process_request returns a record whose processed field
is the whitespace-split tokens of the request upper-cased and joined by single
spaces and whose tokens_processed field is their count; it issues one
Processing update per token plus an initial one, and exactly one completion. -/
theorem C10_streaming_spec (request : String) :
    (streamingAgent_process_request request).2.lookup "processed"
      = some (String.intercalate " " ((pySplit request).map pyUpper)) ∧
    (streamingAgent_process_request request).2.lookup "tokens_processed"
      = some (toString (pySplit request).length) ∧
    ((streamingAgent_process_request request).1.filter EngineCall.isProcessingUpdate).length
      = (pySplit request).length + 1 ∧
    ((streamingAgent_process_request request).1.filter EngineCall.isComplete).length = 1 := by
  refine ⟨rfl, rfl, ?_, ?_⟩
  · simp only [streamingAgent_process_request, List.filter_append, List.length_append]
    rw [filter_map_range_length _ _ (fun i => rfl)]
    simp [EngineCall.isProcessingUpdate, EngineCall.isComplete]
    omega
  · simp only [streamingAgent_process_request, List.filter_append, List.length_append]
    rw [filter_map_range_nil _ _ (fun i => rfl)]
    simp [EngineCall.isProcessingUpdate, EngineCall.isComplete]

end CLIAgent

